import Mathlib

/-!
Shallow embedding of the ESP32 HTTP endpoint facade (src/main/http_hal.c)
and the LED request handler (src/main/main.c).

Modelling conventions:
- C pointers that may be NULL become `Option`; a handler function pointer is
  an opaque identifier (`Nat`), never called by the facade itself.
- The underlying esp_http_server library is modelled concretely: a live
  server is its configuration plus the ordered list of registered routes;
  `httpd_register_uri_handler` fails on a duplicate URI+method or when the
  handler table is full, leaving the server unchanged, exactly the failure
  modes the facade can observe.  `httpd_start`/`httpd_stop` and the response
  transport may fail; those outcomes are supplied by an explicit `Env`.
- C char-buffer `snprintf`/`strnlen` truncation is modelled by `c_truncate`
  on the underlying character list; `tolower` by `c_tolower`.
- Heap allocation (`calloc`/`realloc`) is assumed to succeed; memory layout
  is not modelled.
-/

/-- esp_err_t values that the modelled code can produce or observe. -/
inductive EspErr where
  | ok
  | invalidArg
  | noMem
  | invalidState
  | notFound
  | handlerExists
  | handlersFull
  | fail
deriving DecidableEq

/-- One registered route inside the underlying server: the payload of
`httpd_uri_t` (uri, method, handler, user_ctx).  The handler function
pointer and the context pointer are opaque identifiers. -/
structure Route where
  uri : String
  method : Nat
  handler : Nat
  user_ctx : Nat
deriving DecidableEq

/-- The routing key of a route: URI plus method. -/
def Route.key (r : Route) : String × Nat := (r.uri, r.method)

/-- The slice of `httpd_config_t` that `fill_httpd_config` touches. -/
structure HttpdConfig where
  server_port : Int
  lru_purge_enable : Bool
  max_uri_handlers : Nat
deriving DecidableEq

/-- HTTPD_DEFAULT_CONFIG(): port 80, LRU purge off, 8 URI handlers. -/
def HTTPD_DEFAULT_CONFIG : HttpdConfig :=
  { server_port := 80, lru_purge_enable := false, max_uri_handlers := 8 }

/-- A live esp_http_server instance: its configuration and the ordered list
of registered routes. -/
structure Httpd where
  cfg : HttpdConfig
  routes : List Route
deriving DecidableEq

/-- Library collaborator `httpd_register_uri_handler`: fails with
HANDLER_EXISTS on a duplicate URI+method, with HANDLERS_FULL when the
handler table is full, otherwise appends the route. -/
def httpd_register_uri_handler (s : Httpd) (r : Route) : EspErr × Httpd :=
  if r.key ∈ s.routes.map Route.key then (.handlerExists, s)
  else if s.cfg.max_uri_handlers ≤ s.routes.length then (.handlersFull, s)
  else (.ok, { s with routes := s.routes ++ [r] })

/-- Library collaborator `httpd_unregister_uri_handler`: removes the route
matching URI+method from the live server; NOT_FOUND when absent. -/
def httpd_unregister_uri_handler (s : Httpd) (uri : String) (method : Nat) :
    EspErr × Httpd :=
  if (uri, method) ∈ s.routes.map Route.key then
    (.ok, { s with routes := s.routes.filter (fun q => decide (q.key ≠ (uri, method))) })
  else (.notFound, s)

/-- External outcomes of the library calls the facade cannot influence:
whether `httpd_start` and `httpd_stop` succeed. -/
structure Env where
  httpdStartOk : Bool
  httpdStopOk : Bool
deriving DecidableEq

/-- Library collaborator `httpd_start`: brings up a fresh server with no
routes, or fails, as dictated by the environment. -/
def httpd_start (env : Env) (cfg : HttpdConfig) : EspErr × Option Httpd :=
  if env.httpdStartOk then (.ok, some { cfg := cfg, routes := [] }) else (.fail, none)

/-- Library collaborator `httpd_stop`: tears the server down, or fails, as
dictated by the environment. -/
def httpd_stop (env : Env) : EspErr :=
  if env.httpdStopOk then .ok else .fail

/-- http_hal_config_t from http_hal.h. -/
structure http_hal_config_t where
  port : Int
  lru_purge_enable : Bool
  max_uri_handlers : Int
deriving DecidableEq

/-- http_hal_endpoint_t from http_hal.h; `uri` and `handler` are nullable
in C, hence `Option` here. -/
structure http_hal_endpoint_t where
  uri : Option String
  method : Nat
  handler : Option Nat
  user_ctx : Nat
deriving DecidableEq

/-- struct http_hal_s from http_hal.c: the server handle (NULL when
stopped), the configuration snapshot, and the pending-endpoints buffer
`uris`.  The capacity field only governs reallocation, which is not
modelled, so the buffer is a plain list. -/
structure http_hal_t where
  server : Option Httpd
  cfg : http_hal_config_t
  uris : List Route
deriving DecidableEq

/-- http_hal_init: fresh instance, no server, empty buffer (allocation
assumed to succeed). -/
def http_hal_init (cfg : http_hal_config_t) : http_hal_t :=
  { server := none, cfg := cfg, uris := [] }

/-- fill_httpd_config from http_hal.c: start from the library default,
override the port and handler count only when explicitly positive, pass the
LRU flag through. -/
def fill_httpd_config (incfg : http_hal_config_t) : HttpdConfig :=
  let out := HTTPD_DEFAULT_CONFIG
  let out := if incfg.port > 0 then { out with server_port := incfg.port } else out
  let out := { out with lru_purge_enable := incfg.lru_purge_enable }
  if incfg.max_uri_handlers > 0 then
    { out with max_uri_handlers := incfg.max_uri_handlers.toNat }
  else out

/-- The replay loop in http_hal_start: register each buffered descriptor in
order, ignoring individual failures (they are only logged). -/
def replayFold (s : Httpd) (rs : List Route) : Httpd :=
  rs.foldl (fun s u => (httpd_register_uri_handler s u).2) s

/-- http_hal_start: no-op when already running; otherwise build the config,
start the underlying server, replay the buffered endpoints (failures
logged and skipped), and return ESP_OK. -/
def http_hal_start (env : Env) (h : http_hal_t) : EspErr × http_hal_t :=
  match h.server with
  | some _ => (.ok, h)
  | none =>
    match httpd_start env (fill_httpd_config h.cfg) with
    | (_, some s0) => (.ok, { h with server := some (replayFold s0 h.uris) })
    | (err, none) => (err, h)

/-- http_hal_stop: no-op when already stopped; otherwise stop the
underlying server, clearing the handle only on success, and return the
library's result.  The buffer is untouched in every case. -/
def http_hal_stop (env : Env) (h : http_hal_t) : EspErr × http_hal_t :=
  match h.server with
  | none => (.ok, h)
  | some _ =>
    let err := httpd_stop env
    if err = .ok then (err, { h with server := none }) else (err, h)

/-- http_hal_register_endpoint: INVALID_ARG when uri or handler is NULL;
otherwise append to the buffer, and if the server is live also register
immediately, surfacing that error to the caller. -/
def http_hal_register_endpoint (h : http_hal_t) (ep : http_hal_endpoint_t) :
    EspErr × http_hal_t :=
  match ep.uri, ep.handler with
  | some uri, some handler =>
    let u : Route :=
      { uri := uri, method := ep.method, handler := handler, user_ctx := ep.user_ctx }
    let h1 : http_hal_t := { h with uris := h.uris ++ [u] }
    match h1.server with
    | some s =>
      let res := httpd_register_uri_handler s u
      (res.1, { h1 with server := some res.2 })
    | none => (.ok, h1)
  | _, _ => (.invalidArg, h)

/-- http_hal_unregister_endpoint: INVALID_ARG on a NULL uri, INVALID_STATE
when the server is not running, otherwise delegate to the library. -/
def http_hal_unregister_endpoint (h : http_hal_t) (uri : Option String) (method : Nat) :
    EspErr × http_hal_t :=
  match uri with
  | none => (.invalidArg, h)
  | some u =>
    match h.server with
    | none => (.invalidState, h)
    | some s =>
      let res := httpd_unregister_uri_handler s u method
      (res.1, { h with server := some res.2 })

/-- http_hal_native_handle: the live server reference, NULL when stopped. -/
def http_hal_native_handle (h : http_hal_t) : Option Httpd := h.server

/-- A client-side loop issuing one register_endpoint call per descriptor,
collecting the per-call results. -/
def registerSeq (h : http_hal_t) : List http_hal_endpoint_t → http_hal_t × List EspErr
  | [] => (h, [])
  | ep :: eps =>
    let r1 := http_hal_register_endpoint h ep
    let r2 := registerSeq r1.2 eps
    (r2.1, r1.1 :: r2.2)

/-- The endpoint-descriptor argument (both required fields non-NULL) that
denotes a given route. -/
def Route.toArg (r : Route) : http_hal_endpoint_t :=
  { uri := some r.uri, method := r.method, handler := some r.handler, user_ctx := r.user_ctx }

/-- C char-buffer truncation: keep the first `n` characters, as
`snprintf` into a buffer of `n + 1` bytes or `strnlen(s, n)` does. -/
def c_truncate (n : Nat) (s : String) : String := String.mk (s.data.take n)

/-- C `tolower` applied characterwise, as the parse_state copy loop does. -/
def c_tolower (s : String) : String := String.mk (s.data.map Char.toLower)

/-- The observable response a request handler produces: either the
library's canonical error page for one of the reserved codes, or an
explicitly formatted response (status line, content type, body). -/
inductive Sent where
  | canonicalErr (code : Nat) (msg : String)
  | json (status : String) (contentType : String) (body : String)
deriving DecidableEq

/-- The mutable response-header state carried by an httpd_req_t. -/
structure RespState where
  status : String
  contentType : String
deriving DecidableEq

/-- Library collaborator `httpd_resp_set_status`. -/
def httpd_resp_set_status (r : RespState) (s : String) : RespState :=
  { r with status := s }

/-- Library collaborator `httpd_resp_set_type`. -/
def httpd_resp_set_type (r : RespState) (t : String) : RespState :=
  { r with contentType := t }

/-- Library collaborator `httpd_resp_send`: delivers the response with the
headers configured so far, or fails when the transport is broken. -/
def httpd_resp_send (transportOk : Bool) (r : RespState) (body : String) :
    EspErr × Option Sent :=
  if transportOk then (.ok, some (.json r.status r.contentType body)) else (.fail, none)

/-- Library collaborator `httpd_resp_send_err`: the canonical error page
for a reserved code, or a transport failure. -/
def httpd_resp_send_err (transportOk : Bool) (code : Nat) (msg : String) :
    EspErr × Option Sent :=
  if transportOk then (.ok, some (.canonicalErr code msg)) else (.fail, none)

/-- HTTPD_400_BAD_REQUEST denotes status 400. -/
def HTTPD_400_BAD_REQUEST : Nat := 400

/-- HTTPD_401_UNAUTHORIZED denotes status 401. -/
def HTTPD_401_UNAUTHORIZED : Nat := 401

/-- HTTPD_404_NOT_FOUND denotes status 404. -/
def HTTPD_404_NOT_FOUND : Nat := 404

/-- HTTPD_413_CONTENT_TOO_LARGE denotes status 413. -/
def HTTPD_413_CONTENT_TOO_LARGE : Nat := 413

/-- HTTPD_500_INTERNAL_SERVER_ERROR denotes status 500. -/
def HTTPD_500_INTERNAL_SERVER_ERROR : Nat := 500

/-- `snprintf(status, 32, "%d", status_code)`: the numeric status line,
truncated to the 31 characters the buffer can hold. -/
def statusLineOf (status_code : Int) : String := c_truncate 31 (toString status_code)

/-- http_hal_send_json: INVALID_ARG on a NULL body; otherwise set the
numeric status line and the JSON content type, send the body, DISCARD the
transport result, and return ESP_OK. -/
def http_hal_send_json (transportOk : Bool) (r0 : RespState) (status_code : Int)
    (json : Option String) : EspErr × Option Sent :=
  match json with
  | none => (.invalidArg, none)
  | some j =>
    let r1 := httpd_resp_set_status r0 (statusLineOf status_code)
    let r2 := httpd_resp_set_type r1 "application/json"
    let sent := httpd_resp_send transportOk r2 j
    (.ok, sent.2)

/-- `snprintf(buf, 96, "{\"error\":\"%s\"}", msg)`: the fallback JSON error
body, truncated to the 95 characters the buffer can hold. -/
def errFallbackBody (msg : String) : String :=
  c_truncate 95 ("\x7b\"error\":\"" ++ msg ++ "\"\x7d")

/-- http_hal_send_err: INVALID_ARG on a NULL message; the library's
canonical responder for the five reserved codes; otherwise the JSON
fallback through http_hal_send_json. -/
def http_hal_send_err (transportOk : Bool) (r0 : RespState) (status_code : Int)
    (msg : Option String) : EspErr × Option Sent :=
  match msg with
  | none => (.invalidArg, none)
  | some m =>
    if status_code = 400 then httpd_resp_send_err transportOk HTTPD_400_BAD_REQUEST m
    else if status_code = 401 then httpd_resp_send_err transportOk HTTPD_401_UNAUTHORIZED m
    else if status_code = 404 then httpd_resp_send_err transportOk HTTPD_404_NOT_FOUND m
    else if status_code = 413 then httpd_resp_send_err transportOk HTTPD_413_CONTENT_TOO_LARGE m
    else if status_code = 500 then
      httpd_resp_send_err transportOk HTTPD_500_INTERNAL_SERVER_ERROR m
    else http_hal_send_json transportOk r0 status_code (some (errFallbackBody m))

/-- Library collaborator `httpd_query_key_value` as the handler observes
it: the value for `key` when present and short enough for the destination
buffer of `buf_len` bytes; `none` when absent or truncated (the handler
treats any non-ESP_OK result as absence). -/
def httpd_query_key_value (q : List (String × String)) (key : String) (buf_len : Nat) :
    Option String :=
  match q.find? (fun kv => kv.1 == key) with
  | some kv => if kv.2.length + 1 ≤ buf_len then some kv.2 else none
  | none => none

/-- The handler-owned mutable state in main.c: the globals `lvl`,
`logical`, `log_request`, plus the GPIO output level the last
`gpio_set_level` call established. -/
structure AppState where
  lvl : Int
  logical : Int
  log_request : Bool
  gpio : Int
deriving DecidableEq

/-- LED_ACTIVE_LOW from main.c. -/
def LED_ACTIVE_LOW : Bool := false

/-- parse_state from main.c: lowercase the first 15 characters, accept
1/on/true as level 1 and 0/off/false as level 0; `none` means the C
function returned false without writing to its out-parameter. -/
def parse_state (s : String) : Option Int :=
  let tmp := c_tolower (c_truncate 15 s)
  if tmp = "1" ∨ tmp = "on" ∨ tmp = "true" then some 1
  else if tmp = "0" ∨ tmp = "off" ∨ tmp = "false" then some 0
  else none

/-- logical_from_gpio_level from main.c. -/
def logical_from_gpio_level (gpio_level : Int) : Int :=
  if LED_ACTIVE_LOW then (if gpio_level ≠ 0 then 0 else 1)
  else (if gpio_level ≠ 0 then 1 else 0)

/-- gpio_level_from_logical from main.c. -/
def gpio_level_from_logical (logical_level : Int) : Int :=
  let lvl : Int := if logical_level ≠ 0 then 1 else 0
  if LED_ACTIVE_LOW then (if lvl ≠ 0 then 0 else 1) else lvl

/-- The `snprintf(resp, 80, ...)` reply body of led_get_handler. -/
def ledReplyBody (led_on : Int) (gpio_lvl : Int) : String :=
  c_truncate 79
    ("\x7b\"ok\":true,\"led\":" ++ (if led_on ≠ 0 then "true" else "false")
      ++ ",\"gpio_level\":" ++ toString gpio_lvl ++ "\x7d")

/-- The tail of led_get_handler: pick the reported level from `logical` or
`lvl` depending on `log_request`, and send the 200 JSON reply. -/
def led_reply (t : Bool) (r0 : RespState) (st : AppState) :
    AppState × (EspErr × Option Sent) :=
  let gpio_lvl := if st.log_request then st.logical else st.lvl
  let led_on := logical_from_gpio_level gpio_lvl
  (st, http_hal_send_json t r0 200 (some (ledReplyBody led_on gpio_lvl)))

/-- The `state=` branch of led_get_handler: on a malformed value reply 400
at once; on a valid value set `logical`, mark `log_request`, drive the
GPIO, then fall through to the reply. -/
def led_state_branch (t : Bool) (r0 : RespState) (st : AppState)
    (q : List (String × String)) : AppState × (EspErr × Option Sent) :=
  match httpd_query_key_value q "state" 16 with
  | some state_str =>
    match parse_state state_str with
    | none => (st, http_hal_send_err t r0 400 (some "Invalid state (use on/off/true/false)"))
    | some v =>
      let st := { st with logical := v, log_request := true,
                          gpio := gpio_level_from_logical v }
      led_reply t r0 st
  | none => led_reply t r0 st

/-- led_get_handler from main.c: process `level=` first (malformed value
replies 400 immediately, valid value sets `lvl` and drives the GPIO), then
the `state=` branch, then the JSON reply; a request with no readable query
string skips both branches. -/
def led_get_handler (t : Bool) (r0 : RespState) (st : AppState)
    (query : Option (List (String × String))) : AppState × (EspErr × Option Sent) :=
  match query with
  | some q =>
    match httpd_query_key_value q "level" 8 with
    | some level_str =>
      match parse_state level_str with
      | none => (st, http_hal_send_err t r0 400 (some "Invalid level (use 0 or 1)"))
      | some v =>
        let st := { st with lvl := v, gpio := gpio_level_from_logical v }
        led_state_branch t r0 st q
    | none => led_state_branch t r0 st q
  | none => led_reply t r0 st

/-- The default response-header state of a fresh request. -/
def respDefault : RespState := { status := "200 OK", contentType := "text/html" }

/-- The routes that survive replay: drop each route whose URI+method key
already occurred (in `seen` or earlier in the list), keeping the first
registration of every key. -/
def dedupFirst (seen : List (String × Nat)) : List Route → List Route
  | [] => []
  | r :: rs =>
    if r.key ∈ seen then dedupFirst seen rs
    else r :: dedupFirst (r.key :: seen) rs

lemma dedupFirst_congr (rs : List Route) :
    ∀ s1 s2 : List (String × Nat), (∀ k, k ∈ s1 ↔ k ∈ s2) →
      dedupFirst s1 rs = dedupFirst s2 rs := by
  induction rs with
  | nil => intro s1 s2 _; rfl
  | cons r rs ih =>
    intro s1 s2 hmem
    by_cases hk : r.key ∈ s1
    · rw [dedupFirst, if_pos hk, dedupFirst, if_pos ((hmem r.key).1 hk), ih s1 s2 hmem]
    · rw [dedupFirst, if_neg hk, dedupFirst,
        if_neg (fun hc => hk ((hmem r.key).2 hc))]
      have hmem2 : ∀ k, k ∈ r.key :: s1 ↔ k ∈ r.key :: s2 := by
        intro k
        simp only [List.mem_cons]
        exact or_congr Iff.rfl (hmem k)
      rw [ih _ _ hmem2]

lemma dedupFirst_length_le (rs : List Route) :
    ∀ seen, (dedupFirst seen rs).length ≤ rs.length := by
  induction rs with
  | nil => intro seen; simp [dedupFirst]
  | cons r rs ih =>
    intro seen
    by_cases hk : r.key ∈ seen
    · rw [dedupFirst, if_pos hk]
      exact Nat.le_succ_of_le (ih seen)
    · rw [dedupFirst, if_neg hk]
      exact Nat.succ_le_succ (ih _)

lemma dedupFirst_of_nodup (rs : List Route) :
    ∀ seen, (rs.map Route.key).Nodup → (∀ r ∈ rs, r.key ∉ seen) →
      dedupFirst seen rs = rs := by
  induction rs with
  | nil => intro seen _ _; rfl
  | cons r rs ih =>
    intro seen hnd hseen
    have hk : r.key ∉ seen := hseen r (List.mem_cons_self r rs)
    rw [dedupFirst, if_neg hk]
    rw [List.map_cons] at hnd
    obtain ⟨hhead, hnd'⟩ := List.nodup_cons.1 hnd
    have hseen' : ∀ q ∈ rs, q.key ∉ r.key :: seen := by
      intro q hq
      simp only [List.mem_cons]
      push_neg
      constructor
      · intro hc
        exact hhead (hc ▸ List.mem_map_of_mem Route.key hq)
      · exact hseen q (List.mem_cons_of_mem r hq)
    rw [ih _ hnd' hseen']

lemma dedupFirst_key_mem (rs : List Route) (r : Route) :
    ∀ seen, r ∈ rs →
      r.key ∈ (dedupFirst seen rs).map Route.key ∨ r.key ∈ seen := by
  induction rs with
  | nil => intro seen h; cases h
  | cons q rs ih =>
    intro seen hmem
    by_cases hk : q.key ∈ seen
    · rw [dedupFirst, if_pos hk]
      rcases List.mem_cons.1 hmem with h | h
      · exact Or.inr (h ▸ hk)
      · exact ih seen h
    · rw [dedupFirst, if_neg hk]
      rcases List.mem_cons.1 hmem with h | h
      · subst h
        exact Or.inl (by simp)
      · rcases ih (q.key :: seen) h with hd | hs
        · exact Or.inl (by simp [hd])
        · rcases List.mem_cons.1 hs with he | hs'
          · exact Or.inl (by simp [he])
          · exact Or.inr hs'

lemma register_cfg (s : Httpd) (r : Route) :
    ((httpd_register_uri_handler s r).2).cfg = s.cfg := by
  unfold httpd_register_uri_handler
  split
  · rfl
  · split <;> rfl

lemma register_fail_eq (s : Httpd) (r : Route)
    (h : (httpd_register_uri_handler s r).1 ≠ .ok) :
    (httpd_register_uri_handler s r).2 = s := by
  by_cases h1 : r.key ∈ s.routes.map Route.key
  · simp [httpd_register_uri_handler, h1]
  · by_cases h2 : s.cfg.max_uri_handlers ≤ s.routes.length
    · simp [httpd_register_uri_handler, h1, h2]
    · exact absurd (by simp [httpd_register_uri_handler, h1, h2]) h

lemma replayFold_cfg (rs : List Route) :
    ∀ s : Httpd, (replayFold s rs).cfg = s.cfg := by
  induction rs with
  | nil => intro s; rfl
  | cons r rs ih =>
    intro s
    show (replayFold ((httpd_register_uri_handler s r).2) rs).cfg = s.cfg
    rw [ih, register_cfg]

lemma replayFold_routes (rs : List Route) :
    ∀ s : Httpd,
      s.routes.length + (dedupFirst (s.routes.map Route.key) rs).length
          ≤ s.cfg.max_uri_handlers →
      (replayFold s rs).routes = s.routes ++ dedupFirst (s.routes.map Route.key) rs := by
  induction rs with
  | nil => intro s _; simp [replayFold, dedupFirst]
  | cons r rs ih =>
    intro s hcap
    have hstep : replayFold s (r :: rs) = replayFold ((httpd_register_uri_handler s r).2) rs := rfl
    by_cases hk : r.key ∈ s.routes.map Route.key
    · have hreg : httpd_register_uri_handler s r = (.handlerExists, s) := by
        unfold httpd_register_uri_handler
        rw [if_pos hk]
      rw [hstep, hreg]
      rw [dedupFirst, if_pos hk] at hcap ⊢
      exact ih s hcap
    · rw [dedupFirst, if_neg hk] at hcap ⊢
      have hlt : s.routes.length < s.cfg.max_uri_handlers := by
        simp only [List.length_cons] at hcap
        omega
      have hreg : httpd_register_uri_handler s r
          = (.ok, { s with routes := s.routes ++ [r] }) := by
        unfold httpd_register_uri_handler
        rw [if_neg hk, if_neg (Nat.not_le.2 hlt)]
      rw [hstep, hreg]
      set s' : Httpd := { s with routes := s.routes ++ [r] } with hs'
      have hseen : ∀ k, k ∈ s'.routes.map Route.key ↔ k ∈ r.key :: s.routes.map Route.key := by
        intro k
        simp [hs', Route.key, or_comm]
      have hded : dedupFirst (s'.routes.map Route.key) rs
          = dedupFirst (r.key :: s.routes.map Route.key) rs :=
        dedupFirst_congr rs _ _ hseen
      have hcap' : s'.routes.length + (dedupFirst (s'.routes.map Route.key) rs).length
          ≤ s'.cfg.max_uri_handlers := by
        rw [hded]
        simp only [hs', List.length_append, List.length_singleton]
        simp only [List.length_cons] at hcap
        omega
      rw [ih s' hcap', hded]
      simp [hs', List.append_assoc]

lemma register_stopped (h : http_hal_t) (r : Route) (hs : h.server = none) :
    http_hal_register_endpoint h (Route.toArg r)
      = (.ok, { h with uris := h.uris ++ [r] }) := by
  cases r
  simp [http_hal_register_endpoint, Route.toArg, hs]

lemma registerSeq_stopped (rs : List Route) :
    ∀ h : http_hal_t, h.server = none →
      registerSeq h (rs.map Route.toArg)
        = ({ h with uris := h.uris ++ rs }, List.replicate rs.length EspErr.ok) := by
  induction rs with
  | nil => intro h hs; simp [registerSeq]
  | cons r rs ih =>
    intro h hs
    rw [List.map_cons]
    show (let r1 := http_hal_register_endpoint h (Route.toArg r)
          let r2 := registerSeq r1.2 (rs.map Route.toArg)
          (r2.1, r1.1 :: r2.2))
        = ({ h with uris := h.uris ++ (r :: rs) }, List.replicate (r :: rs).length EspErr.ok)
    rw [register_stopped h r hs]
    have ih' := ih { h with uris := h.uris ++ [r] } hs
    simp only [ih']
    simp [List.append_assoc, List.replicate]

lemma start_running (env : Env) (h : http_hal_t) (s : Httpd) (hs : h.server = some s) :
    http_hal_start env h = (.ok, h) := by
  simp [http_hal_start, hs]

lemma start_stopped (env : Env) (h : http_hal_t) (hs : h.server = none)
    (hok : env.httpdStartOk = true) :
    http_hal_start env h
      = (.ok, { h with
          server := some (replayFold { cfg := fill_httpd_config h.cfg, routes := [] } h.uris) }) := by
  simp [http_hal_start, hs, httpd_start, hok]

lemma start_stopped_cap (env : Env) (h : http_hal_t) (hs : h.server = none)
    (hok : env.httpdStartOk = true)
    (hcap : h.uris.length ≤ (fill_httpd_config h.cfg).max_uri_handlers) :
    http_hal_start env h
      = (.ok, { h with
          server := some { cfg := fill_httpd_config h.cfg, routes := dedupFirst [] h.uris } }) := by
  rw [start_stopped env h hs hok]
  have hroutes : (replayFold { cfg := fill_httpd_config h.cfg, routes := [] } h.uris).routes
      = dedupFirst [] h.uris := by
    have := replayFold_routes h.uris { cfg := fill_httpd_config h.cfg, routes := [] }
      (by simpa using le_trans (dedupFirst_length_le h.uris []) hcap)
    simpa using this
  have hcfg := replayFold_cfg h.uris { cfg := fill_httpd_config h.cfg, routes := [] }
  have : replayFold { cfg := fill_httpd_config h.cfg, routes := [] } h.uris
      = { cfg := fill_httpd_config h.cfg, routes := dedupFirst [] h.uris } := by
    cases heq : replayFold { cfg := fill_httpd_config h.cfg, routes := [] } h.uris
    rw [heq] at hroutes hcfg
    simp at hroutes hcfg
    simp [hroutes, hcfg]
  rw [this]

lemma stop_stopped (env : Env) (h : http_hal_t) (hs : h.server = none) :
    http_hal_stop env h = (.ok, h) := by
  simp [http_hal_stop, hs]

lemma stop_running_ok (env : Env) (h : http_hal_t) (s : Httpd)
    (hs : h.server = some s) (hok : env.httpdStopOk = true) :
    http_hal_stop env h = (.ok, { h with server := none }) := by
  simp [http_hal_stop, hs, httpd_stop, hok]

lemma stop_uris (env : Env) (h : http_hal_t) :
    ((http_hal_stop env h).2).uris = h.uris := by
  unfold http_hal_stop
  cases hs : h.server with
  | none => rfl
  | some s =>
    simp only []
    split <;> rfl

/-- C1: for every sequence of register_endpoint calls that succeed, the
pending-endpoints buffer holds every registered endpoint in registration
order regardless of server state; stop never removes buffer entries; and
after N successful registrations followed by stop then start, all N
endpoints are registered against the live server again. -/
theorem buffer_durability (cfg : http_hal_config_t) (env : Env) (rs : List Route)
    (hnd : (rs.map Route.key).Nodup)
    (hcap : rs.length ≤ (fill_httpd_config cfg).max_uri_handlers)
    (hstart : env.httpdStartOk = true) :
    (∀ (e : Env) (hh : http_hal_t), ((http_hal_stop e hh).2).uris = hh.uris)
    ∧ (registerSeq (http_hal_init cfg) (rs.map Route.toArg)).2
        = List.replicate rs.length EspErr.ok
    ∧ ((registerSeq (http_hal_init cfg) (rs.map Route.toArg)).1).uris = rs
    ∧ (http_hal_stop env (registerSeq (http_hal_init cfg) (rs.map Route.toArg)).1).1
        = EspErr.ok
    ∧ (http_hal_start env
          (http_hal_stop env (registerSeq (http_hal_init cfg) (rs.map Route.toArg)).1).2).1
        = EspErr.ok
    ∧ ∃ s, ((http_hal_start env
          (http_hal_stop env (registerSeq (http_hal_init cfg) (rs.map Route.toArg)).1).2).2).server
            = some s
        ∧ s.routes = rs := by
  have hA : registerSeq (http_hal_init cfg) (rs.map Route.toArg)
      = (⟨none, cfg, rs⟩, List.replicate rs.length EspErr.ok) := by
    rw [registerSeq_stopped rs (http_hal_init cfg) rfl]
    simp [http_hal_init]
  have hB : http_hal_stop env (⟨none, cfg, rs⟩ : http_hal_t)
      = (.ok, ⟨none, cfg, rs⟩) := stop_stopped env _ rfl
  have hded : dedupFirst [] rs = rs :=
    dedupFirst_of_nodup rs [] hnd (fun r _ => List.not_mem_nil r.key)
  have hC : http_hal_start env (⟨none, cfg, rs⟩ : http_hal_t)
      = (.ok, ⟨some { cfg := fill_httpd_config cfg, routes := rs }, cfg, rs⟩) := by
    rw [start_stopped_cap env ⟨none, cfg, rs⟩ rfl hstart (by simpa using hcap)]
    simp [hded]
  refine ⟨stop_uris, ?_, ?_, ?_, ?_, ?_⟩
  · rw [hA]
  · rw [hA]
  · rw [hA, hB]
  · rw [hA, hB, hC]
  · rw [hA, hB, hC]
    exact ⟨_, rfl, rfl⟩

/-- C1 witness: two distinct endpoints registered from a fresh instance
survive a stop/start cycle and are both live again. -/
theorem buffer_durability_witness :
    ((List.map Route.key [⟨"/api/led", 1, 7, 0⟩, ⟨"/api/x", 2, 8, 1⟩]).Nodup
      ∧ (List.length [(⟨"/api/led", 1, 7, 0⟩ : Route), ⟨"/api/x", 2, 8, 1⟩])
          ≤ (fill_httpd_config ⟨0, true, 16⟩).max_uri_handlers)
    ∧ ((registerSeq (http_hal_init ⟨0, true, 16⟩)
          ([⟨"/api/led", 1, 7, 0⟩, ⟨"/api/x", 2, 8, 1⟩].map Route.toArg)).1).uris
        = [⟨"/api/led", 1, 7, 0⟩, ⟨"/api/x", 2, 8, 1⟩]
    ∧ ∃ s, ((http_hal_start ⟨true, true⟩
          (http_hal_stop ⟨true, true⟩
            (registerSeq (http_hal_init ⟨0, true, 16⟩)
              ([⟨"/api/led", 1, 7, 0⟩, ⟨"/api/x", 2, 8, 1⟩].map Route.toArg)).1).2).2).server
            = some s
        ∧ s.routes = [⟨"/api/led", 1, 7, 0⟩, ⟨"/api/x", 2, 8, 1⟩] :=
  ⟨⟨by decide, by decide⟩,
    (buffer_durability ⟨0, true, 16⟩ ⟨true, true⟩
      [⟨"/api/led", 1, 7, 0⟩, ⟨"/api/x", 2, 8, 1⟩] (by decide) (by decide) rfl).2.2.1,
    (buffer_durability ⟨0, true, 16⟩ ⟨true, true⟩
      [⟨"/api/led", 1, 7, 0⟩, ⟨"/api/x", 2, 8, 1⟩] (by decide) (by decide) rfl).2.2.2.2.2⟩

/-- C2: start from Stopped with the underlying server coming up returns
success and transitions to Running even when individual replays fail, and
(within the handler-table capacity) registers the buffered descriptors in
insertion order, the first-registered descriptor surviving for each
URI+method key while failed duplicates are skipped. -/
theorem start_replays_buffer (env : Env) (h : http_hal_t)
    (hs : h.server = none) (hok : env.httpdStartOk = true) :
    (∃ s, http_hal_start env h = (.ok, { h with server := some s }))
    ∧ (h.uris.length ≤ (fill_httpd_config h.cfg).max_uri_handlers →
        http_hal_start env h
          = (.ok, { h with
              server := some { cfg := fill_httpd_config h.cfg,
                               routes := dedupFirst [] h.uris } })) :=
  ⟨⟨_, start_stopped env h hs hok⟩,
   fun hcap => start_stopped_cap env h hs hok hcap⟩

/-- C2 witness: a buffer with a duplicate URI+method replayed at start:
start succeeds, the duplicate's failure is skipped, the later distinct
endpoint is still registered, and the first registration wins. -/
theorem start_replays_buffer_witness :
    http_hal_start ⟨true, true⟩
        (⟨none, ⟨0, true, 16⟩, [⟨"/a", 1, 1, 0⟩, ⟨"/a", 1, 2, 0⟩, ⟨"/b", 1, 3, 0⟩]⟩ : http_hal_t)
      = (.ok, ⟨some { cfg := fill_httpd_config ⟨0, true, 16⟩,
                      routes := [⟨"/a", 1, 1, 0⟩, ⟨"/b", 1, 3, 0⟩] },
               ⟨0, true, 16⟩, [⟨"/a", 1, 1, 0⟩, ⟨"/a", 1, 2, 0⟩, ⟨"/b", 1, 3, 0⟩]⟩) := by
  have := (start_replays_buffer ⟨true, true⟩
      ⟨none, ⟨0, true, 16⟩, [⟨"/a", 1, 1, 0⟩, ⟨"/a", 1, 2, 0⟩, ⟨"/b", 1, 3, 0⟩]⟩
      rfl rfl).2 (by decide)
  rw [this]
  decide

/-- C5: the lifecycle is idempotent: start when Running and stop when
Stopped are success no-ops, and repeating a successful start or a
successful stop returns success and changes nothing (so no descriptor is
registered twice). -/
theorem lifecycle_idempotent (env env2 : Env) (h : http_hal_t) :
    (∀ s, h.server = some s → http_hal_start env h = (.ok, h))
    ∧ (h.server = none → http_hal_stop env h = (.ok, h))
    ∧ ((http_hal_start env h).1 = .ok →
        http_hal_start env2 (http_hal_start env h).2 = (.ok, (http_hal_start env h).2))
    ∧ ((http_hal_stop env h).1 = .ok →
        http_hal_stop env2 (http_hal_stop env h).2 = (.ok, (http_hal_stop env h).2)) := by
  refine ⟨fun s hs => start_running env h s hs, fun hs => stop_stopped env h hs, ?_, ?_⟩
  · cases hsrv : h.server with
    | some s =>
      rw [start_running env h s hsrv]
      intro _
      exact start_running env2 h s hsrv
    | none =>
      cases hok : env.httpdStartOk with
      | true =>
        rw [start_stopped env h hsrv hok]
        intro _
        exact start_running env2 _ _ rfl
      | false =>
        simp [http_hal_start, hsrv, httpd_start, hok]
  · cases hsrv : h.server with
    | none =>
      rw [stop_stopped env h hsrv]
      intro _
      exact stop_stopped env2 h hsrv
    | some s =>
      cases hok : env.httpdStopOk with
      | true =>
        rw [stop_running_ok env h s hsrv hok]
        intro _
        exact stop_stopped env2 _ rfl
      | false =>
        simp [http_hal_stop, hsrv, httpd_stop, hok]

/-- C5 witness: a running instance is unchanged by a second start, and a
stopped instance is unchanged by a second stop. -/
theorem lifecycle_idempotent_witness :
    http_hal_start ⟨true, true⟩
        (⟨some { cfg := HTTPD_DEFAULT_CONFIG, routes := [] }, ⟨0, true, 16⟩, []⟩ : http_hal_t)
      = (.ok, ⟨some { cfg := HTTPD_DEFAULT_CONFIG, routes := [] }, ⟨0, true, 16⟩, []⟩)
    ∧ http_hal_stop ⟨true, true⟩ (⟨none, ⟨0, true, 16⟩, []⟩ : http_hal_t)
      = (.ok, ⟨none, ⟨0, true, 16⟩, []⟩) :=
  ⟨(lifecycle_idempotent ⟨true, true⟩ ⟨true, true⟩ _).1 _ rfl,
   (lifecycle_idempotent ⟨true, true⟩ ⟨true, true⟩ _).2.1 rfl⟩

lemma unregister_snd (s : Httpd) (uri : String) (method : Nat) :
    (httpd_unregister_uri_handler s uri method).2
      = { s with routes := s.routes.filter (fun q => decide (q.key ≠ (uri, method))) } := by
  unfold httpd_unregister_uri_handler
  split
  · rfl
  · next hmem =>
    have hself : s.routes.filter (fun q => decide (q.key ≠ (uri, method))) = s.routes := by
      apply List.filter_eq_self.2
      intro q hq
      simp only [decide_eq_true_eq]
      intro hc
      exact hmem (hc ▸ List.mem_map_of_mem Route.key hq)
    rw [hself]

lemma dedupFirst_key_mem_nil (rs : List Route) (r : Route) (h : r ∈ rs) :
    r.key ∈ (dedupFirst [] rs).map Route.key :=
  (dedupFirst_key_mem rs r [] h).resolve_right (List.not_mem_nil r.key)

/-- C3 counterexample: a descriptor whose uri is the empty string (present
but empty) is not rejected: register_endpoint returns ESP_OK and appends
it to the buffer, contradicting the claim that an empty required field
fails with an invalid-argument error and leaves the buffer unchanged. -/
theorem register_empty_uri_accepted :
    http_hal_register_endpoint (http_hal_init ⟨0, true, 16⟩) ⟨some "", 1, some 0, 0⟩
      = (.ok, ⟨none, ⟨0, true, 16⟩, [⟨"", 1, 0, 0⟩]⟩) := by
  decide

/-- C3 (amended): register_endpoint fails with an invalid-argument error
exactly when uri or handler is NULL — an empty uri string is accepted —
leaving the buffer unchanged; when both are present it appends the
descriptor to the buffer unconditionally, whatever the lifecycle state. -/
theorem register_validates_and_appends (h : http_hal_t) (ep : http_hal_endpoint_t) :
    ((ep.uri = none ∨ ep.handler = none) →
      http_hal_register_endpoint h ep = (.invalidArg, h))
    ∧ (∀ uri handler, ep.uri = some uri → ep.handler = some handler →
        ((http_hal_register_endpoint h ep).2).uris
          = h.uris ++ [⟨uri, ep.method, handler, ep.user_ctx⟩]) := by
  constructor
  · rintro (hu | hh)
    · cases hh2 : ep.handler <;> simp [http_hal_register_endpoint, hu, hh2]
    · cases hu2 : ep.uri <;> simp [http_hal_register_endpoint, hh, hu2]
  · intro uri handler hu hh
    cases hsrv : h.server <;> simp [http_hal_register_endpoint, hu, hh, hsrv]

/-- C3 witness: a NULL uri is rejected leaving the instance unchanged, and
a present uri plus handler is appended to the buffer. -/
theorem register_validates_and_appends_witness :
    http_hal_register_endpoint (⟨none, ⟨0, true, 16⟩, []⟩ : http_hal_t) ⟨none, 1, some 5, 0⟩
      = (.invalidArg, ⟨none, ⟨0, true, 16⟩, []⟩)
    ∧ ((http_hal_register_endpoint (⟨none, ⟨0, true, 16⟩, []⟩ : http_hal_t)
          ⟨some "/a", 1, some 5, 0⟩).2).uris = [⟨"/a", 1, 5, 0⟩] :=
  ⟨(register_validates_and_appends ⟨none, ⟨0, true, 16⟩, []⟩ ⟨none, 1, some 5, 0⟩).1
      (Or.inl rfl),
   (register_validates_and_appends ⟨none, ⟨0, true, 16⟩, []⟩ ⟨some "/a", 1, some 5, 0⟩).2
      "/a" 5 rfl rfl⟩

/-- C4: unregister_endpoint while Stopped fails with invalid-state; while
Running it removes the matching route from the live server only, never
touching the pending-endpoints buffer, so after a subsequent stop/start
cycle the route's key is registered against the live server again. -/
theorem unregister_requires_running (env : Env) (h : http_hal_t) (uri : String)
    (method : Nat) :
    (h.server = none →
      http_hal_unregister_endpoint h (some uri) method = (.invalidState, h))
    ∧ (∀ s, h.server = some s →
        ((http_hal_unregister_endpoint h (some uri) method).2).uris = h.uris
        ∧ ((http_hal_unregister_endpoint h (some uri) method).2).server
            = some { s with
                routes := s.routes.filter (fun q => decide (q.key ≠ (uri, method))) })
    ∧ (∀ s r, h.server = some s → r ∈ h.uris →
        env.httpdStopOk = true → env.httpdStartOk = true →
        h.uris.length ≤ (fill_httpd_config h.cfg).max_uri_handlers →
        ∃ s2, ((http_hal_start env (http_hal_stop env
            (http_hal_unregister_endpoint h (some uri) method).2).2).2).server = some s2
          ∧ r.key ∈ s2.routes.map Route.key) := by
  refine ⟨fun hs => by simp [http_hal_unregister_endpoint, hs], ?_, ?_⟩
  · intro s hs
    constructor
    · simp [http_hal_unregister_endpoint, hs]
    · simp [http_hal_unregister_endpoint, hs, unregister_snd]
  · intro s r hs hr hstop hstart hcap
    have h1eq : (http_hal_unregister_endpoint h (some uri) method).2
        = { h with server := some (httpd_unregister_uri_handler s uri method).2 } := by
      simp [http_hal_unregister_endpoint, hs]
    rw [h1eq]
    rw [stop_running_ok env _ _ rfl hstop]
    rw [start_stopped_cap env _ rfl hstart (by simpa using hcap)]
    exact ⟨_, rfl, by simpa using dedupFirst_key_mem_nil h.uris r hr⟩

/-- C4 witness: unregister on a stopped instance fails with invalid-state;
on a running instance it prunes the live route but not the buffer, and the
route is live again after stop/start. -/
theorem unregister_requires_running_witness :
    http_hal_unregister_endpoint (⟨none, ⟨0, true, 16⟩, [⟨"/a", 1, 1, 0⟩]⟩ : http_hal_t)
        (some "/a") 1
      = (.invalidState, ⟨none, ⟨0, true, 16⟩, [⟨"/a", 1, 1, 0⟩]⟩)
    ∧ ((http_hal_unregister_endpoint
          (⟨some { cfg := fill_httpd_config ⟨0, true, 16⟩, routes := [⟨"/a", 1, 1, 0⟩] },
            ⟨0, true, 16⟩, [⟨"/a", 1, 1, 0⟩]⟩ : http_hal_t) (some "/a") 1).2).uris
        = [⟨"/a", 1, 1, 0⟩]
    ∧ ∃ s2, ((http_hal_start ⟨true, true⟩ (http_hal_stop ⟨true, true⟩
          (http_hal_unregister_endpoint
            (⟨some { cfg := fill_httpd_config ⟨0, true, 16⟩, routes := [⟨"/a", 1, 1, 0⟩] },
              ⟨0, true, 16⟩, [⟨"/a", 1, 1, 0⟩]⟩ : http_hal_t)
            (some "/a") 1).2).2).2).server = some s2
        ∧ (Route.key ⟨"/a", 1, 1, 0⟩) ∈ s2.routes.map Route.key :=
  ⟨(unregister_requires_running ⟨true, true⟩ ⟨none, ⟨0, true, 16⟩, [⟨"/a", 1, 1, 0⟩]⟩
      "/a" 1).1 rfl,
   ((unregister_requires_running ⟨true, true⟩
      ⟨some { cfg := fill_httpd_config ⟨0, true, 16⟩, routes := [⟨"/a", 1, 1, 0⟩] },
        ⟨0, true, 16⟩, [⟨"/a", 1, 1, 0⟩]⟩ "/a" 1).2.1 _ rfl).1,
   (unregister_requires_running ⟨true, true⟩
      ⟨some { cfg := fill_httpd_config ⟨0, true, 16⟩, routes := [⟨"/a", 1, 1, 0⟩] },
        ⟨0, true, 16⟩, [⟨"/a", 1, 1, 0⟩]⟩ "/a" 1).2.2 _ ⟨"/a", 1, 1, 0⟩ rfl
      (by decide) rfl rfl (by decide)⟩

/-- C8: stop on a Running instance whose teardown succeeds returns
success and clears the handle, so native_handle reports an absent value;
and stop leaves the pending-endpoints buffer untouched in every case. -/
theorem stop_preserves_buffer (env : Env) (h : http_hal_t) :
    (∀ s, h.server = some s → env.httpdStopOk = true →
      http_hal_stop env h = (.ok, { h with server := none })
      ∧ http_hal_native_handle (http_hal_stop env h).2 = none)
    ∧ ((http_hal_stop env h).2).uris = h.uris := by
  refine ⟨fun s hs hok => ?_, stop_uris env h⟩
  have heq := stop_running_ok env h s hs hok
  exact ⟨heq, by rw [heq]; rfl⟩

/-- C8 witness: stopping a concrete running instance yields ESP_OK, an
absent native handle, and an unchanged buffer. -/
theorem stop_preserves_buffer_witness :
    http_hal_stop ⟨true, true⟩
        (⟨some { cfg := HTTPD_DEFAULT_CONFIG, routes := [⟨"/a", 1, 1, 0⟩] },
          ⟨0, true, 16⟩, [⟨"/a", 1, 1, 0⟩]⟩ : http_hal_t)
      = (.ok, ⟨none, ⟨0, true, 16⟩, [⟨"/a", 1, 1, 0⟩]⟩)
    ∧ http_hal_native_handle (http_hal_stop ⟨true, true⟩
        (⟨some { cfg := HTTPD_DEFAULT_CONFIG, routes := [⟨"/a", 1, 1, 0⟩] },
          ⟨0, true, 16⟩, [⟨"/a", 1, 1, 0⟩]⟩ : http_hal_t)).2 = none :=
  (stop_preserves_buffer ⟨true, true⟩
    ⟨some { cfg := HTTPD_DEFAULT_CONFIG, routes := [⟨"/a", 1, 1, 0⟩] },
      ⟨0, true, 16⟩, [⟨"/a", 1, 1, 0⟩]⟩).1 _ rfl rfl

/-- C10: register_endpoint while Running whose immediate registration
against the live server fails returns that error to the caller, yet the
descriptor has already been appended to the buffer and is not rolled
back, so after a later stop/start cycle (capacity permitting) its key is
registered against the live server. -/
theorem register_failure_keeps_descriptor (env : Env) (h : http_hal_t) (s : Httpd)
    (r : Route) (hs : h.server = some s)
    (hf : (httpd_register_uri_handler s r).1 ≠ .ok) :
    http_hal_register_endpoint h (Route.toArg r)
      = ((httpd_register_uri_handler s r).1,
         { h with uris := h.uris ++ [r], server := some s })
    ∧ (httpd_register_uri_handler s r).1 ≠ .ok
    ∧ (env.httpdStopOk = true → env.httpdStartOk = true →
        h.uris.length + 1 ≤ (fill_httpd_config h.cfg).max_uri_handlers →
        ∃ s2, ((http_hal_start env (http_hal_stop env
            { h with uris := h.uris ++ [r], server := some s }).2).2).server = some s2
          ∧ r.key ∈ s2.routes.map Route.key) := by
  refine ⟨?_, hf, ?_⟩
  · have he := register_fail_eq s r hf
    cases r with
    | mk uri method handler ctx =>
      simp only [http_hal_register_endpoint, Route.toArg, hs]
      rw [he]
  · intro hstop hstart hcap
    rw [stop_running_ok env _ s rfl hstop]
    rw [start_stopped_cap env _ rfl hstart (by simpa using hcap)]
    refine ⟨_, rfl, ?_⟩
    have hmem : r ∈ h.uris ++ [r] := List.mem_append_right h.uris (List.mem_singleton_self r)
    simpa using dedupFirst_key_mem_nil (h.uris ++ [r]) r hmem

/-- C10 witness: registering a duplicate of an already-live route fails
with HANDLER_EXISTS, yet the duplicate descriptor lands in the buffer and
its key is live again after a stop/start cycle. -/
theorem register_failure_keeps_descriptor_witness :
    http_hal_register_endpoint
        (⟨some { cfg := fill_httpd_config ⟨0, true, 16⟩, routes := [⟨"/a", 1, 1, 0⟩] },
          ⟨0, true, 16⟩, [⟨"/a", 1, 1, 0⟩]⟩ : http_hal_t)
        (Route.toArg ⟨"/a", 1, 1, 0⟩)
      = (.handlerExists,
         ⟨some { cfg := fill_httpd_config ⟨0, true, 16⟩, routes := [⟨"/a", 1, 1, 0⟩] },
          ⟨0, true, 16⟩, [⟨"/a", 1, 1, 0⟩, ⟨"/a", 1, 1, 0⟩]⟩)
    ∧ ∃ s2, ((http_hal_start ⟨true, true⟩ (http_hal_stop ⟨true, true⟩
          (⟨some { cfg := fill_httpd_config ⟨0, true, 16⟩, routes := [⟨"/a", 1, 1, 0⟩] },
            ⟨0, true, 16⟩, [⟨"/a", 1, 1, 0⟩, ⟨"/a", 1, 1, 0⟩]⟩ : http_hal_t)).2).2).server
        = some s2
      ∧ (Route.key ⟨"/a", 1, 1, 0⟩) ∈ s2.routes.map Route.key :=
  ⟨(register_failure_keeps_descriptor ⟨true, true⟩
      ⟨some { cfg := fill_httpd_config ⟨0, true, 16⟩, routes := [⟨"/a", 1, 1, 0⟩] },
        ⟨0, true, 16⟩, [⟨"/a", 1, 1, 0⟩]⟩
      { cfg := fill_httpd_config ⟨0, true, 16⟩, routes := [⟨"/a", 1, 1, 0⟩] }
      ⟨"/a", 1, 1, 0⟩ rfl (by decide)).1,
   (register_failure_keeps_descriptor ⟨true, true⟩
      ⟨some { cfg := fill_httpd_config ⟨0, true, 16⟩, routes := [⟨"/a", 1, 1, 0⟩] },
        ⟨0, true, 16⟩, [⟨"/a", 1, 1, 0⟩]⟩
      { cfg := fill_httpd_config ⟨0, true, 16⟩, routes := [⟨"/a", 1, 1, 0⟩] }
      ⟨"/a", 1, 1, 0⟩ rfl (by decide)).2.2 rfl rfl (by decide)⟩

lemma c_truncate_length_le (n : Nat) (s : String) : (c_truncate n s).length ≤ n := by
  show (s.data.take n).length ≤ n
  rw [List.length_take]
  omega

/-- C6: send_err delegates to the library's canonical error responder for
the reserved status set 400, 401, 404, 413, 500; for any other status code
it emits the JSON fallback error object through send_json's mechanics with
that status code, bounded at 95 characters by truncation; concretely,
send_err(422, "bad") yields a 422 response with the JSON error body. -/
theorem send_err_mapping (t : Bool) (r0 : RespState) (code : Int) (m : String) :
    ((code = 400 ∨ code = 401 ∨ code = 404 ∨ code = 413 ∨ code = 500) →
      http_hal_send_err t r0 code (some m) = httpd_resp_send_err t code.toNat m)
    ∧ (¬(code = 400 ∨ code = 401 ∨ code = 404 ∨ code = 413 ∨ code = 500) →
        http_hal_send_err t r0 code (some m)
          = http_hal_send_json t r0 code (some (errFallbackBody m))
        ∧ (errFallbackBody m).length ≤ 95)
    ∧ http_hal_send_err true r0 422 (some "bad")
        = (.ok, some (.json "422" "application/json" "\x7b\"error\":\"bad\"\x7d")) := by
  refine ⟨?_, ?_, ?_⟩
  · rintro (h1 | h1 | h1 | h1 | h1) <;> subst h1 <;> rfl
  · intro hnr
    push_neg at hnr
    obtain ⟨h1, h2, h3, h4, h5⟩ := hnr
    exact ⟨by simp [http_hal_send_err, h1, h2, h3, h4, h5],
           c_truncate_length_le 95 _⟩
  · rfl

/-- C6 witness: send_err(400) takes the canonical path and send_err(422)
takes the JSON fallback path. -/
theorem send_err_mapping_witness :
    http_hal_send_err true respDefault 400 (some "bad")
      = httpd_resp_send_err true (Int.toNat 400) "bad"
    ∧ http_hal_send_err true respDefault 422 (some "bad")
      = http_hal_send_json true respDefault 422 (some (errFallbackBody "bad")) :=
  ⟨(send_err_mapping true respDefault 400 "bad").1 (Or.inl rfl),
   ((send_err_mapping true respDefault 422 "bad").2.1 (by decide)).1⟩

/-- C9 counterexample: with the transport broken, the underlying
httpd_resp_send fails, yet send_json still returns ESP_OK — the transport
error is discarded, not propagated to the caller as the claim states. -/
theorem send_json_swallows_transport_error :
    http_hal_send_json false respDefault 200 (some "\x7b\x7d") = (.ok, none)
    ∧ httpd_resp_send false (httpd_resp_set_type
        (httpd_resp_set_status respDefault (statusLineOf 200)) "application/json")
        "\x7b\x7d"
      = (.fail, none) :=
  ⟨rfl, rfl⟩

/-- C9 (amended): send_success, given a body, sets the numeric status
line, sets the JSON content type, and writes the full body when the
transport works; it returns success unconditionally — a broken
transport's error is discarded rather than propagated. -/
theorem send_json_always_ok (t : Bool) (r0 : RespState) (code : Int) (j : String) :
    (http_hal_send_json t r0 code (some j)).1 = .ok
    ∧ (t = true → (http_hal_send_json t r0 code (some j)).2
        = some (.json (statusLineOf code) "application/json" j)) := by
  refine ⟨rfl, ?_⟩
  intro ht
  subst ht
  rfl

/-- C9 witness: a concrete 200 response with a working transport: success
result, numeric status line, JSON content type, full body. -/
theorem send_json_always_ok_witness :
    (http_hal_send_json true respDefault 200 (some "\x7b\x7d")).1 = .ok
    ∧ (http_hal_send_json true respDefault 200 (some "\x7b\x7d")).2
        = some (.json (statusLineOf 200) "application/json" "\x7b\x7d") :=
  ⟨(send_json_always_ok true respDefault 200 "\x7b\x7d").1,
   (send_json_always_ok true respDefault 200 "\x7b\x7d").2 rfl⟩

/-- C7 counterexample: a request carrying a valid level and a malformed
state drives the GPIO and stores the new level BEFORE the 400 for the
malformed state parameter is emitted: the handler replies 400 yet its
state has changed from the initial state. -/
theorem led_handler_mutates_before_400 :
    led_get_handler true respDefault ⟨0, 0, false, 0⟩
        (some [("level", "1"), ("state", "zz")])
      = (⟨1, 0, false, 1⟩,
         (.ok, some (.canonicalErr 400 "Invalid state (use on/off/true/false)")))
    ∧ (⟨1, 0, false, 1⟩ : AppState) ≠ ⟨0, 0, false, 0⟩ := by
  exact ⟨rfl, by decide⟩

/-- C7 (amended): a malformed level value is rejected with HTTP 400 before
any state mutation; a malformed state value when no level parameter is
readable is likewise rejected with HTTP 400 before any state mutation; but
when a valid level accompanies a malformed state in the same request, the
level's GPIO and variable mutation has already happened when the 400 is
emitted. -/
theorem led_handler_rejects_malformed (t : Bool) (r0 : RespState) (st : AppState)
    (q : List (String × String)) :
    (∀ v, httpd_query_key_value q "level" 8 = some v → parse_state v = none →
      led_get_handler t r0 st (some q)
        = (st, http_hal_send_err t r0 400 (some "Invalid level (use 0 or 1)")))
    ∧ (httpd_query_key_value q "level" 8 = none →
        ∀ w, httpd_query_key_value q "state" 16 = some w → parse_state w = none →
        led_get_handler t r0 st (some q)
          = (st, http_hal_send_err t r0 400 (some "Invalid state (use on/off/true/false)")))
    ∧ (∀ v lv w, httpd_query_key_value q "level" 8 = some v → parse_state v = some lv →
        httpd_query_key_value q "state" 16 = some w → parse_state w = none →
        led_get_handler t r0 st (some q)
          = ({ st with lvl := lv, gpio := gpio_level_from_logical lv },
             http_hal_send_err t r0 400 (some "Invalid state (use on/off/true/false)"))) := by
  refine ⟨?_, ?_, ?_⟩
  · intro v hv hp
    simp [led_get_handler, hv, hp]
  · intro hlv w hw hp
    simp [led_get_handler, led_state_branch, hlv, hw, hp]
  · intro v lv w hv hp hw hp2
    simp [led_get_handler, led_state_branch, hv, hp, hw, hp2]

/-- C7 witness: a lone malformed level and a lone malformed state are both
rejected with 400 and the handler state is unchanged. -/
theorem led_handler_rejects_malformed_witness :
    led_get_handler true respDefault ⟨0, 0, false, 0⟩ (some [("level", "9")])
      = (⟨0, 0, false, 0⟩,
         http_hal_send_err true respDefault 400 (some "Invalid level (use 0 or 1)"))
    ∧ led_get_handler true respDefault ⟨0, 0, false, 0⟩ (some [("state", "9")])
      = (⟨0, 0, false, 0⟩,
         http_hal_send_err true respDefault 400 (some "Invalid state (use on/off/true/false)")) :=
  ⟨(led_handler_rejects_malformed true respDefault ⟨0, 0, false, 0⟩ [("level", "9")]).1
      "9" rfl (by decide),
   (led_handler_rejects_malformed true respDefault ⟨0, 0, false, 0⟩ [("state", "9")]).2.1
      rfl "9" rfl (by decide)⟩
